import Mathlib

/-!
Shallow embedding of the go-and-compose API server: the storage accessor
(storage/storage.go, storage/items.go), the HTTP server wrapper
(apiserver/apiserver.go, apiserver/items.go), and the process entry point
(main.go).  Database round trips are parametrized by their raw outcome
(an `Except` of the scanned columns), so both the success and the failure
paths of the Go code are represented.
-/

namespace GoAndCompose

/-- storage/items.go: `type Item struct { ID string; Name string }`. -/
structure Item where
  ID : String
  Name : String
deriving DecidableEq, Repr

/-- storage/items.go: `type CreateItemRequest struct { Name string }`. -/
structure CreateItemRequest where
  Name : String
deriving DecidableEq, Repr

/-- A raw database row as handed to `Scanner.Scan`: either the two scanned
columns `(id, name)` or a scan/round-trip error. -/
def RawRow := Except String (String × String)

/-- storage/items.go `ScanItem`: scans a row into an `Item`, propagating a
scan error. -/
def ScanItem (s : Except String (String × String)) : Except String Item :=
  match s with
  | .error e => .error e
  | .ok (id, name) => .ok { ID := id, Name := name }

/-- storage/items.go `ListItems`, row loop: `for rows.Next() { item, err :=
ScanItem(rows); if err != nil { return nil, fmt.Errorf("could not scan item: %w", err) };
items = append(items, item) }`, with `acc` the `items` slice accumulated so far. -/
def scanRows (rows : List (Except String (String × String))) (acc : List Item) :
    Except String (List Item) :=
  match rows with
  | [] => .ok acc
  | r :: rs =>
    match ScanItem r with
    | .error e => .error ("could not scan item: " ++ e)
    | .ok item => scanRows rs (acc ++ [item])

/-- storage/items.go `Storage.ListItems`: the outcome of
`conn.QueryContext(ctx, "SELECT id, name FROM items")` is `q` (an error, or
the list of raw rows the cursor will yield); a query error is wrapped as
`could not retrieve items`, otherwise each row is scanned in order. -/
def ListItems (q : Except String (List (Except String (String × String)))) :
    Except String (List Item) :=
  match q with
  | .error e => .error ("could not retrieve items: " ++ e)
  | .ok rows => scanRows rows []

/-- storage/items.go `Storage.CreateItem`: one
`QueryRowContext(ctx, "INSERT INTO items(name) VALUES($1) RETURNING id, name", i.Name)`
round trip whose raw row outcome is `row`, then `ScanItem(row)`. -/
def CreateItem (row : Except String (String × String)) : Except String Item :=
  ScanItem row

/-- Modelled from the migration DDL in the README (`id uuid DEFAULT
public.gen_random_uuid() NOT NULL`): the backend generates a fresh opaque
identifier for each inserted row; `n` is the insertion counter standing in
for the uuid source. -/
def gen_random_uuid (n : Nat) : String :=
  "uuid-" ++ toString n

/-- The relational backend state: the `items` table rows in insertion order,
plus the counter feeding `gen_random_uuid`. -/
structure DB where
  rows : List Item
  nextRowId : Nat
deriving DecidableEq, Repr

/-- Modelled from the migration DDL and the insert statement: the round trip
for `INSERT INTO items(name) VALUES($1) RETURNING id, name` on a live
backend stores one row with a generated identifier and returns its columns. -/
def DB.insertReturning (db : DB) (name : String) : (String × String) × DB :=
  let id := gen_random_uuid db.nextRowId
  ((id, name),
   { rows := db.rows ++ [{ ID := id, Name := name }],
     nextRowId := db.nextRowId + 1 })

/-- Modelled from the select statement: `SELECT id, name FROM items` on a
live backend yields every stored row, each scanning cleanly. -/
def DB.selectItems (db : DB) : List (Except String (String × String)) :=
  db.rows.map (fun i => .ok (i.ID, i.Name))

/-- `Storage.CreateItem` run against a live backend `db`: the insert round
trip succeeds and its row is scanned. -/
def createItemDB (db : DB) (r : CreateItemRequest) : Except String Item × DB :=
  let (row, db') := db.insertReturning r.Name
  (CreateItem (.ok row), db')

/-- `Storage.ListItems` run against a live backend `db`. -/
def listItemsDB (db : DB) : Except String (List Item) :=
  ListItems (.ok db.selectItems)

/-- The `*sql.DB` handle; opaque to this program. -/
inductive SqlDB
  | handle
deriving DecidableEq, Repr

/-- storage/storage.go: `type Storage struct { conn *sql.DB }`. -/
structure Storage where
  conn : SqlDB
deriving DecidableEq, Repr

/-- storage/storage.go `NewStorage`: `openResult` is the outcome of
`sql.Open("postgres", databaseURL)` (modelled from the spec: the postgres
driver is not part of this repository; a bad connection URL surfaces here
as an error).  An open error is wrapped as `could not open sql`; otherwise
the handle is stored without any network round trip. -/
def NewStorage (openResult : Except String SqlDB) : Except String Storage :=
  match openResult with
  | .error e => .error ("could not open sql: " ++ e)
  | .ok conn => .ok { conn := conn }

/-- The `http.ResponseWriter` as observed by the client: the status line
(`none` until a header is written) and the sequence of body writes. -/
structure ResponseWriter where
  status : Option Nat
  body : List String
deriving DecidableEq, Repr

/-- A fresh response writer, before the handler has touched it. -/
def freshWriter : ResponseWriter :=
  { status := none, body := [] }

/-- `w.WriteHeader(code)`: records the status code; a superfluous second
call is ignored (net/http semantics). -/
def writeHeader (w : ResponseWriter) (code : Nat) : ResponseWriter :=
  match w.status with
  | some _ => w
  | none => { w with status := some code }

/-- `w.Write(s)`: an implicit `WriteHeader(200)` when no header has been
sent yet, then the bytes are appended to the body. -/
def write (w : ResponseWriter) (s : String) : ResponseWriter :=
  let w' := writeHeader w 200
  { w' with body := w'.body ++ [s] }

/-- An incoming `*http.Request`, reduced to what the handlers consult: its
parsed form values. -/
structure Request where
  form : List (String × String)
deriving DecidableEq, Repr

/-- `req.PostFormValue(key)`: the first value for the key, or the empty
string when the field is absent. -/
def Request.postFormValue (req : Request) (key : String) : String :=
  match req.form.find? (fun p => p.1 == key) with
  | some p => p.2
  | none => ""

/-- A route handler in `EndpointFunc` shape: given the response writer it
returns the error value together with the writer it produced.  The request
and storage outcomes are already partially applied. -/
def HandlerFn := ResponseWriter → Except String Unit × ResponseWriter

/-- apiserver/apiserver.go `Endpoint.ServeHTTP`: runs the wrapped handler;
when it returns an error, the error is logged (`could not process request`)
and a generic `500 internal server error` response is written.  Returns the
final writer and the log lines emitted. -/
def Endpoint.serveHTTP (handler : HandlerFn) (w : ResponseWriter) :
    ResponseWriter × List String :=
  let (res, w') := handler w
  match res with
  | .ok _ => (w', [])
  | .error e =>
    (write (writeHeader w' 500) "internal server error",
     ["could not process request: " ++ e])

/-- apiserver/items.go `APIServer.createItem` body, parametrized by the raw
row outcome of the storage insert: on a storage error the error is returned
(nothing written); on success the handler writes status 201 and the body
`New Item ID: ` followed by the identifier. -/
def createItemE (row : Except String (String × String)) (w : ResponseWriter) :
    Except String Unit × ResponseWriter :=
  match CreateItem row with
  | .error e => (.error e, w)
  | .ok item =>
    let w1 := writeHeader w 201
    let w2 := write w1 ("New Item ID: " ++ item.ID)
    (.ok (), w2)

/-- The line `listItems` writes for one item: `id - name` and a newline. -/
def itemLine (i : Item) : String :=
  i.ID ++ " - " ++ i.Name ++ "\n"

/-- apiserver/items.go `APIServer.listItems` body, parametrized by the raw
query outcome: on a storage error the error is returned (nothing written);
on success each item is written as one line. -/
def listItemsE (q : Except String (List (Except String (String × String))))
    (w : ResponseWriter) : Except String Unit × ResponseWriter :=
  match ListItems q with
  | .error e => (.error e, w)
  | .ok items => (.ok (), items.foldl (fun w i => write w (itemLine i)) w)

/-- `APIServer.createItem` wired to a live backend `db`: reads the form
field `name`, runs the insert round trip, then the handler body. -/
def createItemHandler (req : Request) (db : DB) (w : ResponseWriter) :
    (Except String Unit × ResponseWriter) × DB :=
  let (row, db') := db.insertReturning (req.postFormValue "name")
  (createItemE (.ok row) w, db')

/-- `APIServer.listItems` wired to a live backend `db`. -/
def listItemsHandler (db : DB) (w : ResponseWriter) :
    Except String Unit × ResponseWriter :=
  listItemsE (.ok db.selectItems) w

/-- apiserver/apiserver.go `APIServer.defaultRoute`: writes 200 and
`Hello World` directly to the writer; it has no error return value. -/
def defaultRoute (w : ResponseWriter) : ResponseWriter :=
  write (writeHeader w 200) "Hello World"

/-- How a handler is registered on the mux router: `plain` via
`router.HandleFunc` (an `http.HandlerFunc` with no error return, writing
directly), or `endpoint` via `.Handler(Endpoint{...})` (an `EndpointFunc`
returning an error value, dispatched through `Endpoint.ServeHTTP`). -/
inductive HandlerKind
  | plain
  | endpoint
deriving DecidableEq, Repr

/-- One registered route: matched method (`none` when any method matches),
path, and how its handler is registered. -/
structure Route where
  method : Option String
  path : String
  kind : HandlerKind
deriving DecidableEq, Repr

/-- apiserver/apiserver.go `APIServer.router`:
`router.HandleFunc("/", s.defaultRoute)`,
`router.Methods("POST").Path("/items").Handler(Endpoint{s.createItem})`,
`router.Methods("GET").Path("/items").Handler(Endpoint{s.listItems})`. -/
def routerRoutes : List Route :=
  [ { method := none, path := "/", kind := .plain },
    { method := some "POST", path := "/items", kind := .endpoint },
    { method := some "GET", path := "/items", kind := .endpoint } ]

/-- apiserver/apiserver.go: `type APIServer struct { addr string; storage *storage.Storage }`. -/
structure APIServer where
  addr : String
  storage : Storage
deriving DecidableEq, Repr

/-- A network side effect the wrapper could perform. -/
inductive NetEffect
  | bindListener (addr : String)
deriving DecidableEq, Repr

/-- apiserver/apiserver.go `NewAPIServer`: rejects a blank address with
`addr cannot be blank`, otherwise stores address and storage reference. -/
def NewAPIServer (addr : String) (storage : Storage) : Except String APIServer :=
  if addr = "" then .error "addr cannot be blank"
  else .ok { addr := addr, storage := storage }

/-- The network effects of `NewAPIServer`'s body: none — no statement in the
constructor performs any I/O; listening starts only inside `Start`. -/
def newAPIServerNetEffects (_addr : String) (_storage : Storage) : List NetEffect :=
  []

/-- apiserver/apiserver.go: `var defaultStopTimeout = time.Second * 30`,
in seconds. -/
def defaultStopTimeout : Nat := 30

/-- How the `srv.ListenAndServe()` call inside `Start`'s goroutine ends:
`serverClosed` (it returned `http.ErrServerClosed` after `Shutdown` was
issued) or `failed` with any other error (e.g. address already in use). -/
inductive ListenOutcome
  | serverClosed
  | failed (e : String)
deriving DecidableEq, Repr

/-- The error `srv.Shutdown(ctx)` can return under this model: the shutdown
context's deadline was exceeded before the drain finished. -/
inductive ShutdownErr
  | deadlineExceeded
deriving DecidableEq, Repr

/-- `srv.Shutdown(ctx)` with a deadline of `defaultStopTimeout` seconds:
nil when the in-flight requests drain within the deadline,
`context.DeadlineExceeded` otherwise (remaining connections are then
forcibly closed).  `drainSeconds` is the time the in-flight requests need. -/
def Shutdown (drainSeconds : Nat) : Option ShutdownErr :=
  if drainSeconds ≤ defaultStopTimeout then none else some .deadlineExceeded

/-- How a call to `Start` ends: the process is killed by the
`logrus.Fatalf("listen: ...")` in the listener goroutine, or `Start`
returns the shutdown error to its caller. -/
inductive StartResult
  | fatalExit (msg : String)
  | returned (err : Option ShutdownErr)
deriving DecidableEq, Repr

/-- apiserver/apiserver.go `APIServer.Start`: when the listener fails the
goroutine calls `logrus.Fatalf("listen: ...")` and the whole process exits
— `Start` never returns on that path.  Otherwise `Start` blocks on
`<-stop`, then returns `srv.Shutdown(ctx)` with the 30-second deadline;
`drainSeconds` is the time in-flight requests need once the stop fires. -/
def Start (listen : ListenOutcome) (drainSeconds : Nat) : StartResult :=
  match listen with
  | .failed e => .fatalExit ("listen: " ++ e)
  | .serverClosed => .returned (Shutdown drainSeconds)

/-- The observable steps of `Start`'s body, in the statement order of the
Go source: spawn the listener goroutine, block on `<-stop`, then issue the
shutdown with the `defaultStopTimeout` deadline. -/
inductive StartStep
  | spawnListener
  | awaitStop
  | shutdown (timeoutSeconds : Nat)
deriving DecidableEq, Repr

/-- The sequence of steps `Start` performs, read off its body. -/
def startSteps : List StartStep :=
  [.spawnListener, .awaitStop, .shutdown defaultStopTimeout]

/-- The `stopper` channel of main.go, observed through whether `close` has
been called on it. -/
structure Stopper where
  closed : Bool
deriving DecidableEq, Repr

/-- The result of `close(stopper)`: closing an already-closed channel
panics (Go runtime semantics); otherwise the channel becomes closed. -/
inductive CloseOutcome
  | ok (s : Stopper)
  | panicked
deriving DecidableEq, Repr

/-- Go `close` on a struct channel. -/
def closeChan (s : Stopper) : CloseOutcome :=
  if s.closed then .panicked else .ok { closed := true }

/-- main.go signal goroutine: `go func() { <-done; close(stopper) }()`.
It performs exactly one receive and one close: it stays blocked until the
first signal arrives, then closes the stopper once and exits; any later
signal sits in `done`'s buffer or is dropped and never reaches this
goroutine.  `signals` is the sequence of OS signals delivered. -/
def signalGoroutine (signals : List Unit) (s : Stopper) : CloseOutcome :=
  match signals with
  | [] => .ok s
  | _ :: _ => closeChan s

/-- How many times the signal goroutine executes `close(stopper)` for a
given delivered-signal sequence. -/
def signalGoroutineCloseCount (signals : List Unit) : Nat :=
  match signals with
  | [] => 0
  | _ :: _ => 1

/-- main.go `apiServerCmd` action: builds the storage (wrapping a failure
as `could not initialize storage`), builds the server, and returns
`server.Start(stopper)`.  `openResult` is the outcome of `sql.Open`,
`listen` and `drainSeconds` parametrize `Start` as above. -/
def apiServerAction (addr : String) (openResult : Except String SqlDB)
    (listen : ListenOutcome) (drainSeconds : Nat) : Except String StartResult :=
  match NewStorage openResult with
  | .error e => .error ("could not initialize storage: " ++ e)
  | .ok s =>
    match NewAPIServer addr s with
    | .error e => .error e
    | .ok _ => .ok (Start listen drainSeconds)

/-- main.go `main`: `logrus.WithError(err).Fatal(...)` exits the process
with code 1 when the app returns an error (the cause is logged); exit code
0 otherwise.  No retry happens: `app().Run` is invoked once. -/
def mainExitCode (runResult : Except String StartResult) : Nat :=
  match runResult with
  | .error _ => 1
  | .ok _ => 0

/-! Helper lemmas shared by the claim theorems. -/

lemma writeHeader_body (w : ResponseWriter) (c : Nat) :
    (writeHeader w c).body = w.body := by
  unfold writeHeader
  cases w.status <;> rfl

lemma write_body (w : ResponseWriter) (s : String) :
    (write w s).body = w.body ++ [s] := by
  simp only [write]
  rw [writeHeader_body]

lemma write_status_some (w : ResponseWriter) (s : String) (c : Nat)
    (h : w.status = some c) : (write w s).status = some c := by
  simp only [write, writeHeader, h]

lemma scanRows_map_ok (items acc : List Item) :
    scanRows (items.map (fun i => .ok (i.ID, i.Name))) acc = .ok (acc ++ items) := by
  induction items generalizing acc with
  | nil => simp [scanRows]
  | cons i rest ih =>
    simp only [List.map_cons, scanRows, ScanItem]
    rw [ih]
    simp

lemma scanRows_error_mem (rows : List (Except String (String × String)))
    (acc : List Item) (e : String) (h : scanRows rows acc = .error e) :
    ∃ r ∈ rows, ∃ e1, r = Except.error e1 := by
  induction rows generalizing acc with
  | nil => simp [scanRows] at h
  | cons r rs ih =>
    cases r with
    | error e1 => exact ⟨.error e1, by simp, e1, rfl⟩
    | ok v =>
      obtain ⟨id, name⟩ := v
      simp only [scanRows, ScanItem] at h
      obtain ⟨r', hmem, hr'⟩ := ih (acc ++ [{ ID := id, Name := name }]) h
      exact ⟨r', List.mem_cons_of_mem _ hmem, hr'⟩

lemma foldl_write_body (items : List Item) (w : ResponseWriter) :
    (items.foldl (fun w i => write w (itemLine i)) w).body
      = w.body ++ items.map itemLine := by
  induction items generalizing w with
  | nil => simp
  | cons i rest ih =>
    simp only [List.foldl_cons, List.map_cons, ih, write_body]
    simp

lemma foldl_write_status (items : List Item) (w : ResponseWriter) (c : Nat)
    (h : w.status = some c) :
    (items.foldl (fun w i => write w (itemLine i)) w).status = some c := by
  induction items generalizing w with
  | nil => exact h
  | cons i rest ih =>
    simp only [List.foldl_cons]
    exact ih _ (write_status_some _ _ _ h)

lemma serveHTTP_of_ok (h : HandlerFn) (w w' : ResponseWriter)
    (heq : h w = (.ok (), w')) : Endpoint.serveHTTP h w = (w', []) := by
  unfold Endpoint.serveHTTP
  rw [heq]

lemma serveHTTP_of_error (h : HandlerFn) (w w' : ResponseWriter) (e : String)
    (heq : h w = (.error e, w')) :
    Endpoint.serveHTTP h w
      = (write (writeHeader w' 500) "internal server error",
         ["could not process request: " ++ e]) := by
  unfold Endpoint.serveHTTP
  rw [heq]

lemma gen_random_uuid_ne_empty (n : Nat) : gen_random_uuid n ≠ "" := by
  intro h
  have h2 := congrArg String.length h
  rw [gen_random_uuid, String.length_append] at h2
  have h5 : ("uuid-" : String).length = 5 := rfl
  have h0 : ("" : String).length = 0 := rfl
  omega

/-- C1: for every valid non-empty name, calling CreateItem with that name
and then ListItems yields a sequence containing an item whose name equals
the given name and whose identifier is a non-empty generated string, and
the GET /items response then includes the line with that identifier, a
separator, and the name. -/
theorem claim1_create_then_list (db : DB) (name : String) (_hname : name ≠ "") :
    ∃ item : Item,
      (createItemDB db { Name := name }).1 = .ok item ∧
      item.Name = name ∧
      item.ID ≠ "" ∧
      ∃ items : List Item,
        listItemsDB (createItemDB db { Name := name }).2 = .ok items ∧
        item ∈ items ∧
        (Endpoint.serveHTTP (listItemsHandler (createItemDB db { Name := name }).2)
            freshWriter).1.status = some 200 ∧
        itemLine item ∈
          (Endpoint.serveHTTP (listItemsHandler (createItemDB db { Name := name }).2)
            freshWriter).1.body := by
  refine ⟨{ ID := gen_random_uuid db.nextRowId, Name := name }, rfl, rfl,
    gen_random_uuid_ne_empty db.nextRowId,
    db.rows ++ [{ ID := gen_random_uuid db.nextRowId, Name := name }], ?_, ?_, ?_, ?_⟩
  · show ListItems (.ok (DB.selectItems _)) = _
    simp only [DB.selectItems, ListItems, createItemDB, DB.insertReturning, CreateItem]
    rw [scanRows_map_ok]
    rfl
  · simp
  · have hh : listItemsHandler (createItemDB db { Name := name }).2 freshWriter
        = (.ok (),
           ((createItemDB db { Name := name }).2.rows).foldl
             (fun w i => write w (itemLine i)) freshWriter) := by
      simp only [listItemsHandler, listItemsE, ListItems, DB.selectItems]
      rw [scanRows_map_ok]
      rfl
    rw [serveHTTP_of_ok _ _ _ hh]
    have hrows : (createItemDB db { Name := name }).2.rows
        = db.rows ++ [{ ID := gen_random_uuid db.nextRowId, Name := name }] := rfl
    rw [hrows]
    cases hcase : db.rows with
    | nil =>
      simp only [List.nil_append, List.foldl_cons, List.foldl_nil]
      rfl
    | cons r rest =>
      simp only [List.cons_append, List.foldl_cons]
      exact foldl_write_status _ _ _ rfl
  · have hh : listItemsHandler (createItemDB db { Name := name }).2 freshWriter
        = (.ok (),
           ((createItemDB db { Name := name }).2.rows).foldl
             (fun w i => write w (itemLine i)) freshWriter) := by
      simp only [listItemsHandler, listItemsE, ListItems, DB.selectItems]
      rw [scanRows_map_ok]
      rfl
    rw [serveHTTP_of_ok _ _ _ hh]
    have hrows : (createItemDB db { Name := name }).2.rows
        = db.rows ++ [{ ID := gen_random_uuid db.nextRowId, Name := name }] := rfl
    rw [hrows, foldl_write_body]
    simp [freshWriter]

/-- Witness for C1 at a concrete backend and the name widget. -/
theorem claim1_witness :
    ∃ item : Item,
      (createItemDB { rows := [], nextRowId := 0 } { Name := "widget" }).1 = .ok item ∧
      item.Name = "widget" ∧
      item.ID ≠ "" ∧
      ∃ items : List Item,
        listItemsDB (createItemDB { rows := [], nextRowId := 0 } { Name := "widget" }).2
          = .ok items ∧
        item ∈ items ∧
        (Endpoint.serveHTTP
            (listItemsHandler
              (createItemDB { rows := [], nextRowId := 0 } { Name := "widget" }).2)
            freshWriter).1.status = some 200 ∧
        itemLine item ∈
          (Endpoint.serveHTTP
            (listItemsHandler
              (createItemDB { rows := [], nextRowId := 0 } { Name := "widget" }).2)
            freshWriter).1.body :=
  claim1_create_then_list { rows := [], nextRowId := 0 } "widget" (by decide)

/-- C2: Start blocks the calling context until the stop channel fires (the
await-stop step precedes the shutdown step in its body), on the signal it
issues a shutdown with a fixed 30-second deadline, and it returns the
shutdown error: nil on a clean drain, deadline-exceeded otherwise. -/
theorem claim2_start_shutdown_contract :
    startSteps = [.spawnListener, .awaitStop, .shutdown 30] ∧
    defaultStopTimeout = 30 ∧
    ∀ drainSeconds : Nat,
      Start .serverClosed drainSeconds
        = .returned (if drainSeconds ≤ 30 then none else some .deadlineExceeded) ∧
      (Start .serverClosed drainSeconds = .returned none ↔ drainSeconds ≤ 30) := by
  refine ⟨rfl, rfl, fun d => ⟨rfl, ?_⟩⟩
  simp only [Start, Shutdown, defaultStopTimeout]
  by_cases hd : d ≤ 30 <;> simp [hd]

/-- C3 as stated is false: the root route is registered through
`router.HandleFunc` with a plain handler (`defaultRoute`) that writes
directly and returns no error value, so not every registered route handler
returns an error through the shared dispatcher. -/
theorem claim3_counterexample :
    ¬ ∀ r ∈ routerRoutes, r.kind = HandlerKind.endpoint := by
  decide

/-- C3 amended: both /items route handlers are registered through the
Endpoint wrapper and return an error value, and the shared dispatcher logs
any returned error and writes a generic 500 internal-server-error response;
the root route, however, is registered directly with a plain handler that
writes its own response. -/
theorem claim3_amended_endpoint_dispatch :
    (∀ r ∈ routerRoutes, r.path = "/items" → r.kind = HandlerKind.endpoint) ∧
    ({ method := none, path := "/", kind := HandlerKind.plain } : Route) ∈ routerRoutes ∧
    ∀ (h : HandlerFn) (w w' : ResponseWriter) (e : String),
      h w = (.error e, w') →
      Endpoint.serveHTTP h w
        = (write (writeHeader w' 500) "internal server error",
           ["could not process request: " ++ e]) := by
  refine ⟨by decide, by simp [routerRoutes], ?_⟩
  intro h w w' e heq
  exact serveHTTP_of_error h w w' e heq

/-- Witness for the amended C3: the POST /items route is endpoint-wrapped,
and a handler returning a concrete error yields the 500 response and log. -/
theorem claim3_amended_witness :
    ({ method := some "POST", path := "/items", kind := .endpoint } : Route).kind
        = HandlerKind.endpoint ∧
    Endpoint.serveHTTP (fun w => (Except.error "boom", w)) freshWriter
      = (write (writeHeader freshWriter 500) "internal server error",
         ["could not process request: " ++ "boom"]) :=
  ⟨claim3_amended_endpoint_dispatch.1 _ (by decide) rfl,
   claim3_amended_endpoint_dispatch.2.2 _ freshWriter freshWriter "boom" rfl⟩

/-- C4: starting from the freshly made (open) stopper channel, the signal
goroutine closes it exactly once, on the first delivered signal, and never
panics from a double close, for every sequence of delivered signals. -/
theorem claim4_stop_channel_closed_once :
    ∀ signals : List Unit,
      signalGoroutine signals { closed := false } ≠ .panicked ∧
      signalGoroutineCloseCount signals ≤ 1 ∧
      signalGoroutineCloseCount signals = (if signals = [] then 0 else 1) ∧
      signalGoroutine signals { closed := false }
        = .ok { closed := !signals.isEmpty } := by
  intro signals
  cases signals with
  | nil => refine ⟨by simp [signalGoroutine], by simp [signalGoroutineCloseCount], rfl, rfl⟩
  | cons s rest =>
    refine ⟨?_, by simp [signalGoroutineCloseCount], rfl, rfl⟩
    simp [signalGoroutine, closeChan]

/-- C5: constructing the server wrapper with an empty listen address fails
with the config error and the constructor performs no network binding; for
every non-empty address construction succeeds, storing the address and the
storage reference. -/
theorem claim5_new_apiserver_config :
    (∀ st : Storage, NewAPIServer "" st = .error "addr cannot be blank") ∧
    (∀ (addr : String) (st : Storage), newAPIServerNetEffects addr st = []) ∧
    ∀ (addr : String) (st : Storage), addr ≠ "" →
      NewAPIServer addr st = .ok { addr := addr, storage := st } := by
  refine ⟨fun st => rfl, fun _ _ => rfl, fun addr st h => ?_⟩
  simp [NewAPIServer, h]

/-- Witness for C5 at the concrete address :3000. -/
theorem claim5_witness :
    NewAPIServer ":3000" { conn := .handle }
      = .ok { addr := ":3000", storage := { conn := .handle } } :=
  claim5_new_apiserver_config.2.2 ":3000" { conn := .handle } (by decide)

/-- C6: the POST /items handler inserts a row whose name is the form field
name of the request; on a successful insert the response is 201 with body
`New Item ID: ` followed by the generated identifier, and on a storage
failure the dispatched response is 500 with body `internal server error`. -/
theorem claim6_post_items_contract :
    (∀ (req : Request) (db : DB) (w : ResponseWriter),
      (createItemHandler req db w).2
        = { rows := db.rows ++ [{ ID := gen_random_uuid db.nextRowId,
                                  Name := req.postFormValue "name" }],
            nextRowId := db.nextRowId + 1 }) ∧
    (∀ id name : String,
      Endpoint.serveHTTP (createItemE (.ok (id, name))) freshWriter
        = ({ status := some 201, body := ["New Item ID: " ++ id] }, [])) ∧
    ∀ e : String,
      Endpoint.serveHTTP (createItemE (.error e)) freshWriter
        = ({ status := some 500, body := ["internal server error"] },
           ["could not process request: " ++ e]) :=
  ⟨fun _ _ _ => rfl, fun _ _ => rfl, fun _ => rfl⟩

/-- C7: ListItems on a store with no rows returns the empty sequence and no
error; and whenever ListItems returns an error, either the query itself
failed or some row failed to scan. -/
theorem claim7_list_items_errors :
    ListItems (.ok []) = .ok ([] : List Item) ∧
    ∀ (q : Except String (List (Except String (String × String)))) (e : String),
      ListItems q = .error e →
      (∃ e0, q = .error e0) ∨
      (∃ rows, q = .ok rows ∧ ∃ r ∈ rows, ∃ e1, r = Except.error e1) := by
  refine ⟨rfl, fun q e h => ?_⟩
  cases q with
  | error e0 => exact Or.inl ⟨e0, rfl⟩
  | ok rows =>
    simp only [ListItems] at h
    exact Or.inr ⟨rows, rfl, scanRows_error_mem rows [] e h⟩

/-- Witness for C7: a query whose single row fails to scan. -/
theorem claim7_witness :
    (∃ e0, (Except.ok [Except.error "bad"]
        : Except String (List (Except String (String × String)))) = .error e0) ∨
    (∃ rows, (Except.ok [Except.error "bad"]
        : Except String (List (Except String (String × String)))) = .ok rows ∧
      ∃ r ∈ rows, ∃ e1, r = Except.error e1) :=
  claim7_list_items_errors.2 (.ok [.error "bad"]) ("could not scan item: " ++ "bad") rfl

/-- C8: a failing sql.Open (bad connection URL) makes NewStorage fail with
the wrapped config error, the entry-point action propagates it wrapped as
`could not initialize storage`, and main exits with a non-zero code. -/
theorem claim8_bad_url_fatal :
    ∀ (e addr : String) (listen : ListenOutcome) (d : Nat),
      NewStorage (.error e) = .error ("could not open sql: " ++ e) ∧
      apiServerAction addr (.error e) listen d
        = .error ("could not initialize storage: " ++ ("could not open sql: " ++ e)) ∧
      mainExitCode (apiServerAction addr (.error e) listen d) = 1 :=
  fun _ _ _ _ => ⟨rfl, rfl, rfl⟩

/-- C9: whenever the storage ListItems call fails, the GET /items handler
writes nothing itself, and the dispatched response is exactly the 500
internal-server-error body, never a partial listing. -/
theorem claim9_no_partial_listing :
    ∀ (q : Except String (List (Except String (String × String)))) (e : String),
      ListItems q = .error e →
      Endpoint.serveHTTP (listItemsE q) freshWriter
        = ({ status := some 500, body := ["internal server error"] },
           ["could not process request: " ++ e]) := by
  intro q e h
  have hh : listItemsE q freshWriter = (.error e, freshWriter) := by
    simp [listItemsE, h]
  rw [serveHTTP_of_error _ _ _ _ hh]
  rfl

/-- Witness for C9 at a concrete failing query. -/
theorem claim9_witness :
    Endpoint.serveHTTP (listItemsE (.error "boom")) freshWriter
      = ({ status := some 500, body := ["internal server error"] },
         ["could not process request: " ++ ("could not retrieve items: " ++ "boom")]) :=
  claim9_no_partial_listing (.error "boom") ("could not retrieve items: " ++ "boom") rfl

/-- C10: when the listener fails after construction, the goroutine inside
Start terminates the whole process through the fatal log call; Start never
returns (in particular, never returns the listen error or a shutdown
result) on that path. -/
theorem claim10_listen_failure_fatal :
    ∀ (e : String) (d : Nat),
      Start (.failed e) d = .fatalExit ("listen: " ++ e) ∧
      ∀ r : Option ShutdownErr, Start (.failed e) d ≠ .returned r := by
  intro e d
  refine ⟨rfl, fun r hcon => ?_⟩
  simp [Start] at hcon

end GoAndCompose
